import Mathlib

/-!
Verification development for the parking-lot program `cu.py` ("Parque das
Almas"): session registry, fee computation and JSON persistence.

Modelling conventions:
* Timestamps (`datetime` values) are modelled at second precision by the
  structure `DateTime`; subtraction of two timestamps
  (`(hora_saida - hora_entrada).total_seconds()`) is `totalSeconds`, an
  integer number of seconds computed through the proleptic-Gregorian
  ordinal, exactly as `datetime.__sub__` does.
* Money (`float` literals such as `PRECO_POR_HORA = 5.00` and the products
  formed from them) is modelled by `ℚ`; all amounts appearing here are
  small integer multiples of the rate, where binary floating point is exact.
* The persisted file is modelled by `FileState`: either the file is missing
  (`FileNotFoundError` on open), or its content is not valid JSON
  (`json.JSONDecodeError`), or it is a JSON object, i.e. an ordered list of
  string key/value pairs.  The `json` module is external library code, so
  the JSON text encoding itself is abstracted; the records are kept as
  pairs.
* `datetime.fromisoformat` / `datetime.isoformat` are external library
  functions; they are modelled on the format `isoformat` actually emits for
  second-precision datetimes, `YYYY-MM-DDTHH:MM:SS`, with the same range
  checks `datetime` performs (year 1..9999, calendar-valid day, etc.).
* `input()` results, `datetime.now()` results and the success or failure of
  the barcode library inside `gerar_ticket` are parameters of the
  corresponding functions.
* Python `dict` (insertion-ordered, unique keys) is modelled as an
  association list with `dictLookup` (`placa in vagas` / `vagas[placa]`),
  `dictInsert` (`vagas[placa] = ...`) and `dictPop` (`vagas.pop(placa)`).
-/

namespace Parque

/-- A `datetime` value at second precision. -/
structure DateTime where
  year : Nat
  month : Nat
  day : Nat
  hour : Nat
  minute : Nat
  second : Nat
deriving DecidableEq, Repr

/-- Gregorian leap-year rule, as in Python's `calendar`/`datetime`. -/
def isLeapYear (y : Nat) : Bool :=
  y % 4 == 0 && (y % 100 != 0 || y % 400 == 0)

/-- Number of days in month `m` of year `y`. -/
def daysInMonth (y m : Nat) : Nat :=
  if m == 2 then (if isLeapYear y then 29 else 28)
  else if m == 4 || m == 6 || m == 9 || m == 11 then 30
  else 31

/-- The range/calendar constraints `datetime.__new__` enforces
(MINYEAR = 1, MAXYEAR = 9999, calendar-valid day, time fields in range). -/
def DateTime.valid (d : DateTime) : Bool :=
  1 ≤ d.year && d.year ≤ 9999 &&
  1 ≤ d.month && d.month ≤ 12 &&
  1 ≤ d.day && d.day ≤ daysInMonth d.year d.month &&
  d.hour ≤ 23 && d.minute ≤ 59 && d.second ≤ 59

/-- Days in all years before year `y` (proleptic Gregorian), as in
`datetime._days_before_year`. -/
def daysBeforeYear (y : Nat) : Nat :=
  365 * (y - 1) + (y - 1) / 4 - (y - 1) / 100 + (y - 1) / 400

/-- Days in year `y` before month `m`, as in `datetime._days_before_month`. -/
def daysBeforeMonth (y m : Nat) : Nat :=
  (List.range (m - 1)).foldl (fun acc k => acc + daysInMonth y (k + 1)) 0

/-- `datetime.toordinal`: day number of `d` in the proleptic Gregorian
calendar, with 0001-01-01 as day 1. -/
def DateTime.toOrdinal (d : DateTime) : Nat :=
  daysBeforeYear d.year + daysBeforeMonth d.year d.month + d.day

/-- Absolute second count of a timestamp, the basis of `datetime`
subtraction. -/
def DateTime.toSecondCount (d : DateTime) : Nat :=
  86400 * d.toOrdinal + 3600 * d.hour + 60 * d.minute + d.second

/-- `(b - a).total_seconds()` for second-precision datetimes: an exact
integer number of seconds, possibly negative. -/
def totalSeconds (b a : DateTime) : Int :=
  (b.toSecondCount : Int) - (a.toSecondCount : Int)

/-! ## Fee computation (inline in `registrar_saida`) -/

/-- `PRECO_POR_HORA = 5.00`. -/
def PRECO_POR_HORA : ℚ := 5

/-- `math.ceil(total_segundos / 3600)`: the exact ceiling of `s / 3600`,
for a (possibly negative) integer number of seconds `s`. -/
def horasCeil (s : Int) : Int :=
  -((-s) / 3600)

/-- `horas_cobradas` as computed by `registrar_saida`:
`math.ceil(total_segundos / 3600)` followed by
`if horas_cobradas == 0: horas_cobradas = 1`. -/
def horasCobradas (s : Int) : Int :=
  let h := horasCeil s
  if h = 0 then 1 else h

/-- `valor_a_pagar = horas_cobradas * PRECO_POR_HORA`. -/
def valorAPagar (s : Int) : ℚ :=
  (horasCobradas s : ℚ) * PRECO_POR_HORA

/-! ## ISO-8601 printing and parsing (external `datetime` methods) -/

/-- The decimal digit characters. -/
def digitChar : Nat → Char
  | 0 => '0' | 1 => '1' | 2 => '2' | 3 => '3' | 4 => '4'
  | 5 => '5' | 6 => '6' | 7 => '7' | 8 => '8' | 9 => '9'
  | _ => '*'

/-- Two-digit zero-padded decimal rendering (`%02d`). -/
def pad2 (n : Nat) : List Char :=
  [digitChar (n / 10), digitChar (n % 10)]

/-- Four-digit zero-padded decimal rendering (`%04d`). -/
def pad4 (n : Nat) : List Char :=
  [digitChar (n / 1000), digitChar (n / 100 % 10), digitChar (n / 10 % 10), digitChar (n % 10)]

/-- `datetime.isoformat` for a second-precision datetime:
`YYYY-MM-DDTHH:MM:SS`, as a character list. -/
def isoformatL (d : DateTime) : List Char :=
  pad4 d.year ++ '-' :: (pad2 d.month ++ '-' :: (pad2 d.day ++
  'T' :: (pad2 d.hour ++ ':' :: (pad2 d.minute ++ ':' :: pad2 d.second))))

/-- `datetime.isoformat` as a `String`. -/
def isoformat (d : DateTime) : String :=
  ⟨isoformatL d⟩

/-- Value of a decimal digit character, `none` on a non-digit. -/
def digitVal (c : Char) : Option Nat :=
  if c.isDigit then some (c.toNat - 48) else none

/-- Parse two decimal digits. -/
def parse2 (a b : Char) : Option Nat :=
  match digitVal a, digitVal b with
  | some x, some y => some (10 * x + y)
  | _, _ => none

/-- Parse four decimal digits. -/
def parse4 (a b c d : Char) : Option Nat :=
  match digitVal a, digitVal b, digitVal c, digitVal d with
  | some x, some y, some z, some w => some (1000 * x + 100 * y + 10 * z + w)
  | _, _, _, _ => none

/-- `datetime.fromisoformat`, modelled on the second-precision format that
`isoformat` emits (`YYYY-MM-DDTHH:MM:SS`), with `datetime`'s own range
checks; any other input fails (`ValueError`). -/
def fromisoformatL (l : List Char) : Option DateTime :=
  match l with
  | [y1, y2, y3, y4, '-', m1, m2, '-', d1, d2, 'T',
     h1, h2, ':', i1, i2, ':', s1, s2] =>
    match parse4 y1 y2 y3 y4, parse2 m1 m2, parse2 d1 d2,
          parse2 h1 h2, parse2 i1 i2, parse2 s1 s2 with
    | some y, some mo, some da, some h, some mi, some s =>
      let d : DateTime := ⟨y, mo, da, h, mi, s⟩
      if d.valid then some d else none
    | _, _, _, _, _, _ => none
  | _ => none

/-- `datetime.fromisoformat` on a `String`. -/
def fromisoformat (s : String) : Option DateTime :=
  fromisoformatL s.data

/-! ## The registry (a Python `dict` mapping plate to entry time) -/

/-- The in-memory registry `vagas`: an insertion-ordered map from plate to
entry timestamp. -/
abbrev Vagas := List (String × DateTime)

/-- `placa in vagas` / `vagas[placa]`: first (unique) binding of a key. -/
def dictLookup : Vagas → String → Option DateTime
  | [], _ => none
  | (p, d) :: rest, k => if p = k then some d else dictLookup rest k

/-- `vagas[placa] = v`: update in place if present, else append (Python
dict insertion order). -/
def dictInsert : Vagas → String → DateTime → Vagas
  | [], k, v => [(k, v)]
  | (p, d) :: rest, k, v =>
    if p = k then (p, v) :: rest else (p, d) :: dictInsert rest k v

/-- `vagas.pop(placa)`: remove the binding of a key, returning the value
and the remaining map; `none` when absent. -/
def dictPop : Vagas → String → Option (DateTime × Vagas)
  | [], _ => none
  | (p, d) :: rest, k =>
    if p = k then some (d, rest)
    else
      match dictPop rest k with
      | none => none
      | some (v, rest') => some (v, (p, d) :: rest')

/-! ## Persistence (`carregar_dados` / `salvar_dados`) -/

/-- The state of the backing file `estacionamento_dados.json`. -/
inductive FileState where
  /-- The file does not exist (`open` raises `FileNotFoundError`). -/
  | missing
  /-- The file exists but its content is not valid JSON
  (`json.load` raises `json.JSONDecodeError`). -/
  | invalidJson (content : String)
  /-- The file holds a JSON object: an ordered list of string key/value
  records. -/
  | json (records : List (String × String))
deriving DecidableEq, Repr

/-- The conversion loop of `carregar_dados`: for each record, convert the
timestamp string with `datetime.fromisoformat`; the first unparseable
string raises `ValueError` (modelled as `Except.error` carrying the
offending string). -/
def converterRegistros : List (String × String) → Except String Vagas
  | [] => .ok []
  | (placa, dataStr) :: rest =>
    match fromisoformat dataStr with
    | none => .error dataStr
    | some d =>
      match converterRegistros rest with
      | .ok vs => .ok ((placa, d) :: vs)
      | .error e => .error e

/-- `carregar_dados()`: `FileNotFoundError` and `json.JSONDecodeError` are
caught and yield the empty registry; each record's timestamp string is then
converted with `datetime.fromisoformat`, whose `ValueError` is NOT caught
and propagates to the caller. -/
def carregar_dados (f : FileState) : Except String Vagas :=
  match f with
  | .missing => .ok []
  | .invalidJson _ => .ok []
  | .json records => converterRegistros records

/-- `salvar_dados(vagas)`: overwrite the backing file with the JSON object
mapping each plate to `data_obj.isoformat()`. -/
def salvar_dados (vagas : Vagas) : FileState :=
  .json (vagas.map (fun pr => (pr.1, isoformat pr.2)))

/-! ## Entry / exit operations -/

/-- Python `str.strip()` whitespace (ASCII): space, tab, newline, carriage
return, vertical tab, form feed. -/
def pyIsSpace (c : Char) : Bool :=
  c = ' ' || c = '\t' || c = '\n' || c = '\r' || c = '\x0b' || c = '\x0c'

/-- `str.strip()` on a character list: drop leading and trailing
whitespace. -/
def stripL (l : List Char) : List Char :=
  ((l.dropWhile pyIsSpace).reverse.dropWhile pyIsSpace).reverse

/-- `input(...).upper().strip()`: ASCII uppercase each character, then
strip surrounding whitespace. -/
def normalizePlate (s : String) : String :=
  ⟨stripL (s.data.map Char.toUpper)⟩

/-- Outcome of `gerar_ticket`'s external barcode/image step. -/
inductive TicketOutcome where
  | success
  | failure (msg : String)
deriving DecidableEq, Repr

/-- `gerar_ticket(placa)`: the whole body is wrapped in
`try ... except Exception`, so it only ever produces a printed message and
never propagates an error. -/
def gerar_ticket (placa : String) (outcome : TicketOutcome) : String :=
  match outcome with
  | .success => "Ticket gerado e salvo como tickets/ticket_" ++ placa ++ ".png"
  | .failure e => "Erro ao gerar o codigo de barras: " ++ e

/-- Result of `registrar_entrada` as seen at the console. -/
inductive EntradaResult where
  /-- `"Placa inválida."`: the normalized plate was empty. -/
  | invalidPlate
  /-- `"Este carro já está no estacionamento!"`. -/
  | alreadyOpen
  /-- Entry registered for `placa` at `entryTime`. -/
  | ok (placa : String) (entryTime : DateTime)
deriving DecidableEq, Repr

/-- Full outcome of `registrar_entrada`: console result, resulting
registry, resulting file state, and the ticket message when issuance was
attempted. -/
structure EntradaOutcome where
  result : EntradaResult
  vagas : Vagas
  file : FileState
  ticketMsg : Option String
deriving DecidableEq, Repr

/-- `registrar_entrada(vagas)`: normalize the typed plate; reject an empty
plate; reject a plate already present; otherwise insert
`vagas[placa] = datetime.now()`, save, and generate the ticket. -/
def registrar_entrada (vagas : Vagas) (file : FileState) (rawPlaca : String)
    (now : DateTime) (tkt : TicketOutcome) : EntradaOutcome :=
  let placa := normalizePlate rawPlaca
  if placa = "" then
    ⟨.invalidPlate, vagas, file, none⟩
  else if (dictLookup vagas placa).isSome then
    ⟨.alreadyOpen, vagas, file, none⟩
  else
    let vagas' := dictInsert vagas placa now
    let file' := salvar_dados vagas'
    ⟨.ok placa now, vagas', file', some (gerar_ticket placa tkt)⟩

/-- The receipt printed by `registrar_saida`. -/
structure Recibo where
  placa : String
  horaEntrada : DateTime
  horaSaida : DateTime
  duracaoSegundos : Int
  horasCobradas : Int
  valorAPagar : ℚ
deriving DecidableEq, Repr

/-- Result of `registrar_saida` as seen at the console. -/
inductive SaidaResult where
  /-- `"Carro não encontrado."`. -/
  | notFound
  /-- Exit registered, with the printed receipt. -/
  | ok (recibo : Recibo)
deriving DecidableEq, Repr

/-- `registrar_saida(vagas)`: normalize the typed plate; if present, pop
it, save, and compute the fee from `datetime.now() - hora_entrada`;
otherwise report not found. -/
def registrar_saida (vagas : Vagas) (file : FileState) (rawPlaca : String)
    (now : DateTime) : SaidaResult × Vagas × FileState :=
  let placa := normalizePlate rawPlaca
  match dictPop vagas placa with
  | none => (.notFound, vagas, file)
  | some (horaEntrada, vagas') =>
    let file' := salvar_dados vagas'
    let s := totalSeconds now horaEntrada
    let h := horasCobradas s
    (.ok ⟨placa, horaEntrada, now, s, h, (h : ℚ) * PRECO_POR_HORA⟩,
     vagas', file')

/-! ## Helper lemmas -/

theorem digitVal_digitChar : ∀ n < 10, digitVal (digitChar n) = some n := by
  decide

theorem parse2_pad2 (n : Nat) (h : n < 100) :
    parse2 (digitChar (n / 10)) (digitChar (n % 10)) = some n := by
  have h1 : n / 10 < 10 := by omega
  have h2 : n % 10 < 10 := by omega
  rw [parse2, digitVal_digitChar _ h1, digitVal_digitChar _ h2]
  simp
  omega

theorem parse4_pad4 (n : Nat) (h : n < 10000) :
    parse4 (digitChar (n / 1000)) (digitChar (n / 100 % 10))
      (digitChar (n / 10 % 10)) (digitChar (n % 10)) = some n := by
  have h1 : n / 1000 < 10 := by omega
  have h2 : n / 100 % 10 < 10 := by omega
  have h3 : n / 10 % 10 < 10 := by omega
  have h4 : n % 10 < 10 := by omega
  rw [parse4, digitVal_digitChar _ h1, digitVal_digitChar _ h2,
      digitVal_digitChar _ h3, digitVal_digitChar _ h4]
  simp
  omega

/-- Months have at most 31 days. -/
theorem daysInMonth_le (y m : Nat) : daysInMonth y m ≤ 31 := by
  rw [daysInMonth]
  split
  · split <;> omega
  · split <;> omega

/-- The printer/parser round trip on a single valid timestamp. -/
theorem fromisoformat_isoformat (d : DateTime) (h : d.valid = true) :
    fromisoformat (isoformat d) = some d := by
  have hdim := daysInMonth_le d.year d.month
  have hb := h
  rw [DateTime.valid] at hb
  simp only [Bool.and_eq_true, decide_eq_true_eq] at hb
  obtain ⟨⟨⟨⟨⟨⟨⟨⟨hy1, hy2⟩, hm1⟩, hm2⟩, hd1⟩, hd2⟩, hh⟩, hmi⟩, hs⟩ := hb
  show fromisoformatL (isoformatL d) = some d
  rw [isoformatL, pad4, pad2, pad2, pad2, pad2, pad2]
  show fromisoformatL [digitChar (d.year / 1000), digitChar (d.year / 100 % 10),
    digitChar (d.year / 10 % 10), digitChar (d.year % 10), '-',
    digitChar (d.month / 10), digitChar (d.month % 10), '-',
    digitChar (d.day / 10), digitChar (d.day % 10), 'T',
    digitChar (d.hour / 10), digitChar (d.hour % 10), ':',
    digitChar (d.minute / 10), digitChar (d.minute % 10), ':',
    digitChar (d.second / 10), digitChar (d.second % 10)] = some d
  rw [fromisoformatL]
  rw [parse4_pad4 d.year (by omega), parse2_pad2 d.month (by omega),
      parse2_pad2 d.day (by omega), parse2_pad2 d.hour (by omega),
      parse2_pad2 d.minute (by omega), parse2_pad2 d.second (by omega)]
  simp [h]

/-- The characterizing inequalities of `horasCeil`. -/
theorem horasCeil_spec (s : Int) :
    3600 * (horasCeil s - 1) < s ∧ s ≤ 3600 * horasCeil s := by
  unfold horasCeil
  omega

/-- `horasCeil` is the mathematical ceiling of `s / 3600`. -/
theorem horasCeil_eq_ceil (s : Int) : horasCeil s = ⌈(s : ℚ) / 3600⌉ := by
  obtain ⟨h1, h2⟩ := horasCeil_spec s
  have h1q : (3600:ℚ) * ((horasCeil s : ℚ) - 1) < (s:ℚ) := by exact_mod_cast h1
  have h2q : (s:ℚ) ≤ 3600 * (horasCeil s : ℚ) := by exact_mod_cast h2
  symm
  rw [Int.ceil_eq_iff]
  constructor
  · rw [lt_div_iff₀ (by norm_num : (0:ℚ) < 3600)]
    linarith
  · rw [div_le_iff₀ (by norm_num : (0:ℚ) < 3600)]
    linarith

/-- A fresh key ends up at the tail of the dict (insertion order). -/
theorem dictInsert_of_lookup_none (m : Vagas) (k : String) (v : DateTime)
    (h : dictLookup m k = none) : dictInsert m k v = m ++ [(k, v)] := by
  induction m with
  | nil => rfl
  | cons pr rest ih =>
    obtain ⟨p, d⟩ := pr
    rw [dictLookup] at h
    by_cases hp : p = k
    · simp [hp] at h
    · rw [dictInsert, if_neg hp]
      rw [if_neg hp] at h
      simp [ih h]

/-- Looking up the freshly inserted key. -/
theorem dictLookup_insert_self (m : Vagas) (k : String) (v : DateTime) :
    dictLookup (dictInsert m k v) k = some v := by
  induction m with
  | nil => simp [dictInsert, dictLookup]
  | cons pr rest ih =>
    obtain ⟨p, d⟩ := pr
    by_cases hp : p = k
    · simp [dictInsert, hp, dictLookup]
    · simp [dictInsert, hp, dictLookup, ih]

/-- Inserting one key does not change the binding of another. -/
theorem dictLookup_insert_ne (m : Vagas) (k k' : String) (v : DateTime)
    (h : k' ≠ k) : dictLookup (dictInsert m k v) k' = dictLookup m k' := by
  have hkk : ¬k = k' := fun hh => h hh.symm
  induction m with
  | nil => simp [dictInsert, dictLookup, hkk]
  | cons pr rest ih =>
    obtain ⟨p, d⟩ := pr
    rw [dictInsert]
    by_cases hp : p = k
    · have hpk : ¬p = k' := fun hh => hkk (hp.symm.trans hh)
      rw [if_pos hp, dictLookup, dictLookup, if_neg hpk, if_neg hpk]
    · rw [if_neg hp, dictLookup, dictLookup, ih]

/-- Popping a key just inserted into a dict not containing it recovers the
original dict. -/
theorem dictPop_insert (m : Vagas) (k : String) (v : DateTime)
    (h : dictLookup m k = none) : dictPop (dictInsert m k v) k = some (v, m) := by
  induction m with
  | nil => simp [dictInsert, dictPop]
  | cons pr rest ih =>
    obtain ⟨p, d⟩ := pr
    rw [dictLookup] at h
    by_cases hp : p = k
    · simp [hp] at h
    · rw [if_neg hp] at h
      rw [dictInsert, if_neg hp, dictPop, if_neg hp, ih h]

/-- `dictPop` fails exactly on absent keys. -/
theorem dictPop_eq_none_iff (m : Vagas) (k : String) :
    dictPop m k = none ↔ dictLookup m k = none := by
  induction m with
  | nil => simp [dictPop, dictLookup]
  | cons pr rest ih =>
    obtain ⟨p, d⟩ := pr
    by_cases hp : p = k
    · simp [dictPop, dictLookup, hp]
    · rw [dictPop, if_neg hp, dictLookup, if_neg hp, ← ih]
      cases hrest : dictPop rest k with
      | none => simp
      | some pr' => simp

/-- A key absent from a dict stays absent after popping another key. -/
theorem dictLookup_dictPop_none (m : Vagas) (k k' : String) (v : DateTime)
    (rest : Vagas) (hpop : dictPop m k = some (v, rest))
    (h : dictLookup m k' = none) : dictLookup rest k' = none := by
  induction m generalizing rest with
  | nil => simp [dictPop] at hpop
  | cons pr tail ih =>
    obtain ⟨p, d⟩ := pr
    rw [dictLookup] at h
    by_cases hp' : p = k'
    · simp [hp'] at h
    · rw [if_neg hp'] at h
      rw [dictPop] at hpop
      by_cases hp : p = k
      · rw [if_pos hp] at hpop
        simp at hpop
        rw [← hpop.2]
        exact h
      · rw [if_neg hp] at hpop
        cases htail : dictPop tail k with
        | none => rw [htail] at hpop; simp at hpop
        | some pr' =>
          obtain ⟨v', rest'⟩ := pr'
          rw [htail] at hpop
          simp at hpop
          rw [← hpop.2, dictLookup, if_neg hp']
          exact ih rest' (hpop.1 ▸ htail) h

/-- A key outside the key list of a dict has no binding. -/
theorem dictLookup_eq_none_of_not_mem_keys (m : Vagas) (k : String)
    (h : k ∉ m.map Prod.fst) : dictLookup m k = none := by
  induction m with
  | nil => rfl
  | cons pr rest ih =>
    obtain ⟨p, d⟩ := pr
    simp only [List.map_cons, List.mem_cons, not_or] at h
    rw [dictLookup, if_neg (fun hh => h.1 hh.symm)]
    exact ih h.2

/-- When the keys are distinct (a Python dict invariant), the popped key is
gone from the remainder. -/
theorem dictLookup_dictPop_self (m : Vagas) (k : String) (v : DateTime)
    (rest : Vagas) (hnd : (m.map Prod.fst).Nodup)
    (hpop : dictPop m k = some (v, rest)) : dictLookup rest k = none := by
  induction m generalizing rest with
  | nil => simp [dictPop] at hpop
  | cons pr tail ih =>
    obtain ⟨p, d⟩ := pr
    simp only [List.map_cons, List.nodup_cons] at hnd
    rw [dictPop] at hpop
    by_cases hp : p = k
    · rw [if_pos hp] at hpop
      simp at hpop
      rw [← hpop.2]
      exact dictLookup_eq_none_of_not_mem_keys tail k (hp ▸ hnd.1)
    · rw [if_neg hp] at hpop
      cases htail : dictPop tail k with
      | none => rw [htail] at hpop; simp at hpop
      | some pr' =>
        obtain ⟨v', rest'⟩ := pr'
        rw [htail] at hpop
        simp at hpop
        rw [← hpop.2, dictLookup, if_neg hp]
        exact ih rest' hnd.2 (hpop.1 ▸ htail)

/-- Round trip of the persistence conversion loop. -/
theorem converterRegistros_map_isoformat (vagas : Vagas)
    (h : ∀ pr ∈ vagas, pr.2.valid = true) :
    converterRegistros (vagas.map (fun pr => (pr.1, isoformat pr.2))) = .ok vagas := by
  induction vagas with
  | nil => rfl
  | cons pr rest ih =>
    obtain ⟨p, d⟩ := pr
    rw [List.map_cons, converterRegistros,
        fromisoformat_isoformat d (h (p, d) (List.mem_cons_self _ _)),
        ih (fun pr hpr => h pr (List.mem_cons_of_mem _ hpr))]

/-- The empty-plate branch of `registrar_entrada`. -/
theorem registrar_entrada_empty (vagas : Vagas) (file : FileState)
    (raw : String) (now : DateTime) (tkt : TicketOutcome)
    (hp : normalizePlate raw = "") :
    registrar_entrada vagas file raw now tkt = ⟨.invalidPlate, vagas, file, none⟩ := by
  simp only [registrar_entrada]
  rw [if_pos hp]

/-- The duplicate-plate branch of `registrar_entrada`. -/
theorem registrar_entrada_dup (vagas : Vagas) (file : FileState)
    (raw : String) (now : DateTime) (tkt : TicketOutcome)
    (hp : normalizePlate raw ≠ "")
    (hdup : (dictLookup vagas (normalizePlate raw)).isSome) :
    registrar_entrada vagas file raw now tkt = ⟨.alreadyOpen, vagas, file, none⟩ := by
  simp only [registrar_entrada]
  rw [if_neg hp, if_pos hdup]

/-- The success branch of `registrar_entrada`. -/
theorem registrar_entrada_ok (vagas : Vagas) (file : FileState)
    (raw : String) (now : DateTime) (tkt : TicketOutcome)
    (hp : normalizePlate raw ≠ "")
    (hfree : dictLookup vagas (normalizePlate raw) = none) :
    registrar_entrada vagas file raw now tkt =
      ⟨.ok (normalizePlate raw) now, dictInsert vagas (normalizePlate raw) now,
       salvar_dados (dictInsert vagas (normalizePlate raw) now),
       some (gerar_ticket (normalizePlate raw) tkt)⟩ := by
  simp only [registrar_entrada]
  rw [if_neg hp, hfree]
  rfl

/-- The not-found branch of `registrar_saida`. -/
theorem registrar_saida_none (vagas : Vagas) (file : FileState)
    (raw : String) (now : DateTime)
    (h : dictLookup vagas (normalizePlate raw) = none) :
    registrar_saida vagas file raw now = (.notFound, vagas, file) := by
  simp only [registrar_saida]
  rw [(dictPop_eq_none_iff _ _).mpr h]

/-- The success branch of `registrar_saida`. -/
theorem registrar_saida_pop (vagas : Vagas) (file : FileState) (raw : String)
    (now entrada : DateTime) (rest : Vagas)
    (h : dictPop vagas (normalizePlate raw) = some (entrada, rest)) :
    registrar_saida vagas file raw now =
      (.ok ⟨normalizePlate raw, entrada, now,
        totalSeconds now entrada, horasCobradas (totalSeconds now entrada),
        (horasCobradas (totalSeconds now entrada) : ℚ) * PRECO_POR_HORA⟩,
       rest, salvar_dados rest) := by
  simp only [registrar_saida]
  rw [h]

/-! ## Claims -/

/-- C1: the claim states that fee computation at session close clamps the
duration to `max(0, exitTime - entryTime)` so that billable hours and
amount due are never negative.  The code does not clamp: at entry
`2024-01-01T12:00:00` and exit `2024-01-01T10:00:00` (clock skew of
-7200 s), `registrar_saida` produces duration -7200 s, billable hours -2
and an amount due of -10.00, a negative charge. -/
theorem c1_clock_skew_negative_charge :
    ∃ r, (registrar_saida [("ABC1234", ⟨2024, 1, 1, 12, 0, 0⟩)]
        (.json [("ABC1234", "2024-01-01T12:00:00")]) "abc1234"
        ⟨2024, 1, 1, 10, 0, 0⟩).1 = .ok r ∧
      r.duracaoSegundos = -7200 ∧ r.horasCobradas = -2 ∧
      r.valorAPagar = -10 ∧ r.valorAPagar < 0 := by
  refine ⟨_, rfl, by decide, by decide, ?_, ?_⟩
  · show ((horasCobradas (-7200) : ℚ)) * PRECO_POR_HORA = -10
    norm_num [horasCobradas, horasCeil, PRECO_POR_HORA]
  · show ((horasCobradas (-7200) : ℚ)) * PRECO_POR_HORA < 0
    norm_num [horasCobradas, horasCeil, PRECO_POR_HORA]

/-- C2: the claim states that `load()` never raises a fatal error, and that
a parse failure of an individual record's timestamp does not abort the
load.  The code catches `FileNotFoundError` and `json.JSONDecodeError` but
not the `ValueError` of `datetime.fromisoformat`: on the valid-JSON file
content `{"ABC1234": "not-a-timestamp"}` the load aborts with an uncaught
error instead of returning a registry.  (Missing file and malformed JSON
do yield the empty registry, as the other conjuncts show.) -/
theorem c2_load_raises_on_bad_timestamp :
    carregar_dados (.json [("ABC1234", "not-a-timestamp")]) =
        .error "not-a-timestamp" ∧
      carregar_dados .missing = .ok [] ∧
      carregar_dados (.invalidJson "not json at all") = .ok [] := by
  exact ⟨rfl, rfl, rfl⟩

/-- C3: a session closed with duration exactly 0 seconds is billed the
minimum charge: opening a free plate and immediately closing it (exit time
equal to entry time) yields a receipt with duration 0, billable hours 1
and amount due equal to the hourly rate. -/
theorem c3_zero_duration_minimum_charge (vagas : Vagas) (file : FileState)
    (raw : String) (now : DateTime) (tkt : TicketOutcome)
    (hp : normalizePlate raw ≠ "")
    (hfree : dictLookup vagas (normalizePlate raw) = none) :
    (registrar_saida (registrar_entrada vagas file raw now tkt).vagas
        (registrar_entrada vagas file raw now tkt).file raw now).1 =
      .ok ⟨normalizePlate raw, now, now, 0, 1, PRECO_POR_HORA⟩ := by
  rw [registrar_entrada_ok vagas file raw now tkt hp hfree]
  have hpop : dictPop (dictInsert vagas (normalizePlate raw) now)
      (normalizePlate raw) = some (now, vagas) :=
    dictPop_insert vagas (normalizePlate raw) now hfree
  rw [registrar_saida_pop _ _ _ _ _ _ hpop]
  have ht : totalSeconds now now = 0 := by
    simp [totalSeconds]
  rw [ht]
  norm_num [horasCobradas, horasCeil, PRECO_POR_HORA]

/-- C3 witness: opening plate "abc123" on the empty registry and closing it
at the same instant is billed 1 hour at the rate of 5.00. -/
theorem c3_witness :
    normalizePlate "abc123" ≠ "" ∧
    dictLookup [] (normalizePlate "abc123") = none ∧
    (registrar_saida
        (registrar_entrada [] .missing "abc123" ⟨2024, 1, 1, 10, 0, 0⟩ .success).vagas
        (registrar_entrada [] .missing "abc123" ⟨2024, 1, 1, 10, 0, 0⟩ .success).file
        "abc123" ⟨2024, 1, 1, 10, 0, 0⟩).1 =
      .ok ⟨normalizePlate "abc123", ⟨2024, 1, 1, 10, 0, 0⟩,
        ⟨2024, 1, 1, 10, 0, 0⟩, 0, 1, PRECO_POR_HORA⟩ :=
  ⟨by decide, by decide,
   c3_zero_duration_minimum_charge [] .missing "abc123" ⟨2024, 1, 1, 10, 0, 0⟩
     .success (by decide) (by decide)⟩

/-- C4 counterexample: the claim quantifies over every non-negative
duration, but at duration exactly 0 the code bills 1 hour while
`ceil(0 / 3600) = 0`, so `billableHours = ceil(durationSeconds / 3600)`
fails there. -/
theorem c4_counterexample :
    (0:Int) ≤ 0 ∧ horasCobradas 0 = 1 ∧ ⌈((0:Int) : ℚ) / 3600⌉ = 0 ∧
      horasCobradas 0 ≠ ⌈((0:Int) : ℚ) / 3600⌉ := by
  refine ⟨le_refl 0, by decide, ?_, ?_⟩
  · norm_num
  · norm_num
    decide

/-- C4 (amended to every positive duration): for 0 < durationSeconds,
`billableHours = ceil(durationSeconds / 3600)`; in particular 3600 s gives
1 hour, 3601 s gives 2 hours, and the 2h15m = 8100 s scenario at rate 5.00
gives 3 hours and an amount due of 15.00 (`amountDue =
billableHours * ratePerHour`). -/
theorem c4_billable_hours_ceiling (s : Int) (h : 0 < s) :
    horasCobradas s = ⌈(s : ℚ) / 3600⌉ ∧
    valorAPagar s = (horasCobradas s : ℚ) * PRECO_POR_HORA ∧
    horasCobradas 3600 = 1 ∧ horasCobradas 3601 = 2 ∧
    horasCobradas 8100 = 3 ∧ valorAPagar 8100 = 15 := by
  refine ⟨?_, rfl, by decide, by decide, by decide, ?_⟩
  · have hs := horasCeil_spec s
    have hne : horasCeil s ≠ 0 := by omega
    rw [horasCobradas]
    simp only [hne, if_false]
    exact horasCeil_eq_ceil s
  · show ((horasCobradas 8100 : Int) : ℚ) * PRECO_POR_HORA = 15
    norm_num [horasCobradas, horasCeil, PRECO_POR_HORA]

/-- C4 witness: the amended claim at the concrete duration 3601 s. -/
theorem c4_witness :
    (0:Int) < 3601 ∧
    (horasCobradas 3601 = ⌈((3601:Int) : ℚ) / 3600⌉ ∧
     valorAPagar 3601 = (horasCobradas 3601 : ℚ) * PRECO_POR_HORA ∧
     horasCobradas 3600 = 1 ∧ horasCobradas 3601 = 2 ∧
     horasCobradas 8100 = 3 ∧ valorAPagar 8100 = 15) :=
  ⟨by decide, c4_billable_hours_ceiling 3601 (by decide)⟩

/-- C5: opening the same normalized plate twice without an intervening
close fails with the already-open error, leaves the registry, its open
count and the file unchanged, and the collision also happens when the two
raw plates differ only in case or surrounding whitespace (they normalize
alike, and normalization happens before lookup/insert). -/
theorem c5_duplicate_open_rejected (vagas : Vagas) (file : FileState)
    (raw raw' : String) (now now' : DateTime) (tkt tkt' : TicketOutcome)
    (hp : normalizePlate raw ≠ "")
    (hfree : dictLookup vagas (normalizePlate raw) = none)
    (hcollide : normalizePlate raw' = normalizePlate raw) :
    registrar_entrada (registrar_entrada vagas file raw now tkt).vagas
        (registrar_entrada vagas file raw now tkt).file raw' now' tkt' =
      ⟨.alreadyOpen, (registrar_entrada vagas file raw now tkt).vagas,
       (registrar_entrada vagas file raw now tkt).file, none⟩ ∧
    (registrar_entrada (registrar_entrada vagas file raw now tkt).vagas
        (registrar_entrada vagas file raw now tkt).file raw' now' tkt').vagas.length =
      (registrar_entrada vagas file raw now tkt).vagas.length := by
  rw [registrar_entrada_ok vagas file raw now tkt hp hfree]
  dsimp only
  have hdup : (dictLookup (dictInsert vagas (normalizePlate raw) now)
      (normalizePlate raw')).isSome := by
    rw [hcollide, dictLookup_insert_self]
    rfl
  rw [registrar_entrada_dup _ _ raw' now' tkt' (by rw [hcollide]; exact hp) hdup]
  exact ⟨rfl, rfl⟩

/-- C5 witness: after opening "abc123", opening "  Abc123 " (same plate up
to case and whitespace) is rejected with the registry, count and file
unchanged. -/
theorem c5_witness :
    registrar_entrada
        (registrar_entrada [] .missing "abc123" ⟨2024, 1, 1, 10, 0, 0⟩ .success).vagas
        (registrar_entrada [] .missing "abc123" ⟨2024, 1, 1, 10, 0, 0⟩ .success).file
        "  Abc123 " ⟨2024, 1, 1, 11, 0, 0⟩ .success =
      ⟨.alreadyOpen,
       (registrar_entrada [] .missing "abc123" ⟨2024, 1, 1, 10, 0, 0⟩ .success).vagas,
       (registrar_entrada [] .missing "abc123" ⟨2024, 1, 1, 10, 0, 0⟩ .success).file,
       none⟩ ∧
    (registrar_entrada
        (registrar_entrada [] .missing "abc123" ⟨2024, 1, 1, 10, 0, 0⟩ .success).vagas
        (registrar_entrada [] .missing "abc123" ⟨2024, 1, 1, 10, 0, 0⟩ .success).file
        "  Abc123 " ⟨2024, 1, 1, 11, 0, 0⟩ .success).vagas.length =
      (registrar_entrada [] .missing "abc123" ⟨2024, 1, 1, 10, 0, 0⟩ .success).vagas.length :=
  c5_duplicate_open_rejected [] .missing "abc123" "  Abc123 "
    ⟨2024, 1, 1, 10, 0, 0⟩ ⟨2024, 1, 1, 11, 0, 0⟩ .success .success
    (by decide) (by decide) (by decide)

/-- C6: closing a plate with no open session fails with not-found and
leaves registry and file unchanged; closing a plate with an open session
removes exactly that session, returns its original entry time together
with the exit timestamp, and (under the dict key-uniqueness invariant) the
plate is gone from the resulting registry. -/
theorem c6_close_session (vagas : Vagas) (file : FileState) (raw : String)
    (now : DateTime) :
    (dictLookup vagas (normalizePlate raw) = none →
      registrar_saida vagas file raw now = (.notFound, vagas, file)) ∧
    (∀ entrada rest, dictPop vagas (normalizePlate raw) = some (entrada, rest) →
      ∃ r, registrar_saida vagas file raw now = (.ok r, rest, salvar_dados rest) ∧
        r.placa = normalizePlate raw ∧ r.horaEntrada = entrada ∧
        r.horaSaida = now ∧
        ((vagas.map Prod.fst).Nodup →
          dictLookup rest (normalizePlate raw) = none)) := by
  constructor
  · exact registrar_saida_none vagas file raw now
  · intro entrada rest hpop
    refine ⟨_, registrar_saida_pop vagas file raw now entrada rest hpop,
      rfl, rfl, rfl, ?_⟩
    intro hnd
    exact dictLookup_dictPop_self vagas (normalizePlate raw) entrada rest hnd hpop

/-- C6 witness: closing "xyz" on the empty registry reports not-found and
changes nothing; closing "abc123" on a one-session registry removes it and
returns the original entry time. -/
theorem c6_witness :
    registrar_saida [] .missing "xyz" ⟨2024, 1, 1, 9, 0, 0⟩ =
      (.notFound, [], .missing) ∧
    ∃ r, registrar_saida [("ABC123", ⟨2024, 1, 1, 10, 0, 0⟩)]
        (.json [("ABC123", "2024-01-01T10:00:00")]) "abc123"
        ⟨2024, 1, 1, 12, 15, 0⟩ = (.ok r, [], salvar_dados []) ∧
      r.placa = normalizePlate "abc123" ∧
      r.horaEntrada = ⟨2024, 1, 1, 10, 0, 0⟩ ∧
      r.horaSaida = ⟨2024, 1, 1, 12, 15, 0⟩ ∧
      dictLookup [] (normalizePlate "abc123") = none := by
  refine ⟨(c6_close_session [] .missing "xyz" ⟨2024, 1, 1, 9, 0, 0⟩).1 (by decide), ?_⟩
  obtain ⟨r, h1, h2, h3, h4, h5⟩ :=
    (c6_close_session [("ABC123", ⟨2024, 1, 1, 10, 0, 0⟩)]
        (.json [("ABC123", "2024-01-01T10:00:00")]) "abc123"
        ⟨2024, 1, 1, 12, 15, 0⟩).2 ⟨2024, 1, 1, 10, 0, 0⟩ [] (by decide)
  exact ⟨r, h1, h2, h3, h4, h5 (by decide)⟩

/-- C7: the persistence round trip: saving any registry of calendar-valid
timestamps and loading it back yields the registry unchanged (second-level
precision is preserved exactly by the ISO format). -/
theorem c7_round_trip (vagas : Vagas)
    (h : ∀ pr ∈ vagas, pr.2.valid = true) :
    carregar_dados (salvar_dados vagas) = .ok vagas :=
  converterRegistros_map_isoformat vagas h

/-- C7 witness: a two-session registry (including a leap-day timestamp)
survives the save/load round trip unchanged. -/
theorem c7_witness :
    (∀ pr ∈ ([("ABC123", ⟨2024, 2, 29, 23, 59, 59⟩),
      ("XYZ9876", ⟨2025, 12, 31, 0, 0, 1⟩)] : Vagas), pr.2.valid = true) ∧
    carregar_dados (salvar_dados [("ABC123", ⟨2024, 2, 29, 23, 59, 59⟩),
        ("XYZ9876", ⟨2025, 12, 31, 0, 0, 1⟩)]) =
      .ok [("ABC123", ⟨2024, 2, 29, 23, 59, 59⟩),
        ("XYZ9876", ⟨2025, 12, 31, 0, 0, 1⟩)] :=
  ⟨by decide,
   c7_round_trip [("ABC123", ⟨2024, 2, 29, 23, 59, 59⟩),
     ("XYZ9876", ⟨2025, 12, 31, 0, 0, 1⟩)] (by decide)⟩

/-- C8: after a successful open, the ticket-issuance outcome has no effect
on the committed state: the resulting registry and file are the same for
any two issuance outcomes, the session is in the registry, the file holds
the saved registry (written before issuance), the persisted record of the
plate is in the file, and issuance itself only yields a printed message. -/
theorem c8_ticket_failure_no_rollback (vagas : Vagas) (file : FileState)
    (raw : String) (now : DateTime) (tkt tkt' : TicketOutcome)
    (hp : normalizePlate raw ≠ "")
    (hfree : dictLookup vagas (normalizePlate raw) = none) :
    (registrar_entrada vagas file raw now tkt).vagas =
      (registrar_entrada vagas file raw now tkt').vagas ∧
    (registrar_entrada vagas file raw now tkt).file =
      (registrar_entrada vagas file raw now tkt').file ∧
    (registrar_entrada vagas file raw now tkt).result =
      .ok (normalizePlate raw) now ∧
    dictLookup (registrar_entrada vagas file raw now tkt).vagas
      (normalizePlate raw) = some now ∧
    (registrar_entrada vagas file raw now tkt).file =
      salvar_dados (registrar_entrada vagas file raw now tkt).vagas ∧
    (∃ recs, (registrar_entrada vagas file raw now tkt).file = .json recs ∧
      (normalizePlate raw, isoformat now) ∈ recs) := by
  rw [registrar_entrada_ok vagas file raw now tkt hp hfree,
      registrar_entrada_ok vagas file raw now tkt' hp hfree]
  dsimp only
  refine ⟨rfl, rfl, rfl, dictLookup_insert_self _ _ _, rfl, ?_⟩
  refine ⟨_, rfl, ?_⟩
  rw [dictInsert_of_lookup_none vagas _ now hfree]
  simp [salvar_dados]

/-- C8 witness: opening "abc123" with a failing barcode writer commits the
same registry and file as with a succeeding one, and the session and its
record are present. -/
theorem c8_witness :
    (registrar_entrada [] .missing "abc123" ⟨2024, 1, 1, 10, 0, 0⟩
        (.failure "disk full")).vagas =
      (registrar_entrada [] .missing "abc123" ⟨2024, 1, 1, 10, 0, 0⟩
        .success).vagas ∧
    (registrar_entrada [] .missing "abc123" ⟨2024, 1, 1, 10, 0, 0⟩
        (.failure "disk full")).file =
      (registrar_entrada [] .missing "abc123" ⟨2024, 1, 1, 10, 0, 0⟩
        .success).file ∧
    (registrar_entrada [] .missing "abc123" ⟨2024, 1, 1, 10, 0, 0⟩
        (.failure "disk full")).result =
      .ok (normalizePlate "abc123") ⟨2024, 1, 1, 10, 0, 0⟩ ∧
    dictLookup (registrar_entrada [] .missing "abc123" ⟨2024, 1, 1, 10, 0, 0⟩
        (.failure "disk full")).vagas (normalizePlate "abc123") =
      some ⟨2024, 1, 1, 10, 0, 0⟩ ∧
    (registrar_entrada [] .missing "abc123" ⟨2024, 1, 1, 10, 0, 0⟩
        (.failure "disk full")).file =
      salvar_dados (registrar_entrada [] .missing "abc123"
        ⟨2024, 1, 1, 10, 0, 0⟩ (.failure "disk full")).vagas ∧
    (∃ recs, (registrar_entrada [] .missing "abc123" ⟨2024, 1, 1, 10, 0, 0⟩
        (.failure "disk full")).file = .json recs ∧
      (normalizePlate "abc123",
        isoformat ⟨2024, 1, 1, 10, 0, 0⟩) ∈ recs) :=
  c8_ticket_failure_no_rollback [] .missing "abc123" ⟨2024, 1, 1, 10, 0, 0⟩
    (.failure "disk full") .success (by decide) (by decide)

/-- C9: a plate that normalizes to the empty string is rejected before the
duplicate check, mutating nothing and saving nothing; and neither entry
nor exit registration can ever put the empty string into a registry that
does not contain it. -/
theorem c9_empty_plate_never_in_registry (vagas : Vagas) (file : FileState)
    (raw : String) (now : DateTime) (tkt : TicketOutcome)
    (h : normalizePlate raw = "") :
    registrar_entrada vagas file raw now tkt = ⟨.invalidPlate, vagas, file, none⟩ ∧
    (∀ raw' now' tkt', dictLookup vagas "" = none →
      dictLookup (registrar_entrada vagas file raw' now' tkt').vagas "" = none) ∧
    (∀ raw' now', dictLookup vagas "" = none →
      dictLookup (registrar_saida vagas file raw' now').2.1 "" = none) := by
  refine ⟨registrar_entrada_empty vagas file raw now tkt h, ?_, ?_⟩
  · intro raw' now' tkt' hempty
    by_cases hp : normalizePlate raw' = ""
    · rw [registrar_entrada_empty vagas file raw' now' tkt' hp]
      exact hempty
    · cases hl : dictLookup vagas (normalizePlate raw') with
      | some d =>
        rw [registrar_entrada_dup vagas file raw' now' tkt' hp (by rw [hl]; rfl)]
        exact hempty
      | none =>
        rw [registrar_entrada_ok vagas file raw' now' tkt' hp hl]
        dsimp only
        rw [dictLookup_insert_ne vagas _ "" now' (fun hh => hp hh.symm)]
        exact hempty
  · intro raw' now' hempty
    cases hpop : dictPop vagas (normalizePlate raw') with
    | none =>
      rw [registrar_saida_none vagas file raw' now'
        ((dictPop_eq_none_iff _ _).mp hpop)]
      exact hempty
    | some pr =>
      obtain ⟨entrada, rest⟩ := pr
      rw [registrar_saida_pop vagas file raw' now' entrada rest hpop]
      exact dictLookup_dictPop_none vagas _ "" entrada rest hpop hempty

/-- C9 witness: the all-whitespace plate "   " is rejected with registry
and file untouched, and concrete entry/exit operations keep the empty
string out of the registry. -/
theorem c9_witness :
    registrar_entrada [("ABC123", ⟨2024, 1, 1, 10, 0, 0⟩)] .missing "   "
        ⟨2024, 1, 1, 11, 0, 0⟩ .success =
      ⟨.invalidPlate, [("ABC123", ⟨2024, 1, 1, 10, 0, 0⟩)], .missing, none⟩ ∧
    dictLookup (registrar_entrada [("ABC123", ⟨2024, 1, 1, 10, 0, 0⟩)] .missing
        "xy z" ⟨2024, 1, 1, 11, 0, 0⟩ .success).vagas "" = none ∧
    dictLookup (registrar_saida [("ABC123", ⟨2024, 1, 1, 10, 0, 0⟩)] .missing
        "abc123" ⟨2024, 1, 1, 11, 0, 0⟩).2.1 "" = none :=
  ⟨(c9_empty_plate_never_in_registry [("ABC123", ⟨2024, 1, 1, 10, 0, 0⟩)]
      .missing "   " ⟨2024, 1, 1, 11, 0, 0⟩ .success (by decide)).1,
   (c9_empty_plate_never_in_registry [("ABC123", ⟨2024, 1, 1, 10, 0, 0⟩)]
      .missing "   " ⟨2024, 1, 1, 11, 0, 0⟩ .success (by decide)).2.1
     "xy z" ⟨2024, 1, 1, 11, 0, 0⟩ .success (by decide),
   (c9_empty_plate_never_in_registry [("ABC123", ⟨2024, 1, 1, 10, 0, 0⟩)]
      .missing "   " ⟨2024, 1, 1, 11, 0, 0⟩ .success (by decide)).2.2
     "abc123" ⟨2024, 1, 1, 11, 0, 0⟩ (by decide)⟩

/-- C10: a failed operation writes nothing: a rejected entry (empty or
duplicate plate) and a rejected exit (unknown plate) return the file
exactly as it was (and the registry unchanged), while the success branches
write precisely the mutated registry. -/
theorem c10_save_only_on_mutation (vagas : Vagas) (file : FileState)
    (raw : String) (now : DateTime) (tkt : TicketOutcome) :
    (normalizePlate raw = "" →
      registrar_entrada vagas file raw now tkt = ⟨.invalidPlate, vagas, file, none⟩) ∧
    (normalizePlate raw ≠ "" → (dictLookup vagas (normalizePlate raw)).isSome →
      registrar_entrada vagas file raw now tkt = ⟨.alreadyOpen, vagas, file, none⟩) ∧
    (dictLookup vagas (normalizePlate raw) = none →
      registrar_saida vagas file raw now = (.notFound, vagas, file)) ∧
    (normalizePlate raw ≠ "" → dictLookup vagas (normalizePlate raw) = none →
      (registrar_entrada vagas file raw now tkt).file =
        salvar_dados (registrar_entrada vagas file raw now tkt).vagas) ∧
    (∀ entrada rest, dictPop vagas (normalizePlate raw) = some (entrada, rest) →
      (registrar_saida vagas file raw now).2.2 =
        salvar_dados (registrar_saida vagas file raw now).2.1) := by
  refine ⟨registrar_entrada_empty vagas file raw now tkt, ?_, ?_, ?_, ?_⟩
  · intro hp hdup
    exact registrar_entrada_dup vagas file raw now tkt hp hdup
  · exact registrar_saida_none vagas file raw now
  · intro hp hfree
    rw [registrar_entrada_ok vagas file raw now tkt hp hfree]
  · intro entrada rest hpop
    rw [registrar_saida_pop vagas file raw now entrada rest hpop]

/-- C10 witness: a duplicate entry and an unknown-plate exit leave the
file as it was; a fresh entry and a found exit write the mutated
registry. -/
theorem c10_witness :
    (registrar_entrada [("ABC123", ⟨2024, 1, 1, 10, 0, 0⟩)]
        (.json [("ABC123", "2024-01-01T10:00:00")]) " abc123"
        ⟨2024, 1, 1, 11, 0, 0⟩ .success =
      ⟨.alreadyOpen, [("ABC123", ⟨2024, 1, 1, 10, 0, 0⟩)],
       .json [("ABC123", "2024-01-01T10:00:00")], none⟩) ∧
    (registrar_saida [] (.json []) "zzz1111" ⟨2024, 1, 1, 11, 0, 0⟩ =
      (.notFound, [], .json [])) ∧
    (registrar_entrada [] (.json []) "abc123" ⟨2024, 1, 1, 10, 0, 0⟩
        .success).file =
      salvar_dados (registrar_entrada [] (.json []) "abc123"
        ⟨2024, 1, 1, 10, 0, 0⟩ .success).vagas ∧
    (registrar_saida [("ABC123", ⟨2024, 1, 1, 10, 0, 0⟩)]
        (.json [("ABC123", "2024-01-01T10:00:00")]) "abc123"
        ⟨2024, 1, 1, 11, 0, 0⟩).2.2 =
      salvar_dados (registrar_saida [("ABC123", ⟨2024, 1, 1, 10, 0, 0⟩)]
        (.json [("ABC123", "2024-01-01T10:00:00")]) "abc123"
        ⟨2024, 1, 1, 11, 0, 0⟩).2.1 :=
  ⟨(c10_save_only_on_mutation [("ABC123", ⟨2024, 1, 1, 10, 0, 0⟩)]
      (.json [("ABC123", "2024-01-01T10:00:00")]) " abc123"
      ⟨2024, 1, 1, 11, 0, 0⟩ .success).2.1 (by decide) (by decide),
   (c10_save_only_on_mutation [] (.json []) "zzz1111"
      ⟨2024, 1, 1, 11, 0, 0⟩ .success).2.2.1 (by decide),
   (c10_save_only_on_mutation [] (.json []) "abc123"
      ⟨2024, 1, 1, 10, 0, 0⟩ .success).2.2.2.1 (by decide) (by decide),
   (c10_save_only_on_mutation [("ABC123", ⟨2024, 1, 1, 10, 0, 0⟩)]
      (.json [("ABC123", "2024-01-01T10:00:00")]) "abc123"
      ⟨2024, 1, 1, 11, 0, 0⟩ .success).2.2.2.2 ⟨2024, 1, 1, 10, 0, 0⟩ []
     (by decide)⟩

end Parque
